import Mathlib

/-!
# bazel-rpm examples: the GTK4 window demo

Shallow embedding of `examples/gtk_example/main.c`.

The C program only talks to the GTK/GLib toolkit.  The toolkit is modelled as a
table of objects (`Toolkit.objects`, a pointer is an index into it, `NULL` is
`none`) together with the history of the calls made by the program
(`Toolkit.calls`).  Every toolkit function the program calls is one constructor
of `Call`; `perform` gives its effect on the table.  The three C functions
`on_button_clicked`, `activate` and `main` are translated statement by
statement, threading the toolkit state.

`examples/complex_package/base.h` declares the abstract class `BaseClass` with
the single pure virtual member `int getValue()`; it has no function body, so
there is nothing in it to embed.
-/

namespace GtkExample

/-! ## Toolkit data -/

/-- A C pointer to a toolkit object: `NULL` or the index of the object. -/
abbrev Gpointer := Option Nat

/-- The `GtkOrientation` enumeration. -/
inductive GtkOrientation
  | GTK_ORIENTATION_HORIZONTAL
  | GTK_ORIENTATION_VERTICAL
  deriving DecidableEq, Repr

/-- The `GApplicationFlags` value `G_APPLICATION_DEFAULT_FLAGS` (no flag set). -/
def G_APPLICATION_DEFAULT_FLAGS : Nat := 0

/-- The function pointers this program hands to `g_signal_connect`. -/
inductive Callback
  | on_button_clicked
  | activate
  deriving DecidableEq, Repr

/-- One `g_signal_connect` registration on an object. -/
structure SignalConnection where
  detailed_signal : String
  c_handler : Callback
  data : Gpointer
  deriving DecidableEq, Repr

/-- The run-time type of a toolkit object. -/
inductive GType
  | GTK_TYPE_APPLICATION
  | GTK_TYPE_APPLICATION_WINDOW
  | GTK_TYPE_BOX
  | GTK_TYPE_BUTTON
  deriving DecidableEq, Repr

/-- Whether a window is on screen: created but never presented, presented
(open), or closed. -/
inductive WindowStatus
  | hidden
  | opened
  | closed
  deriving DecidableEq, Repr

/-- A toolkit object with the properties this program reads or writes. -/
structure GObject where
  gtype : GType
  ref_count : Nat := 1
  application_id : String := ""
  flags : Nat := 0
  application : Gpointer := none
  title : Option String := none
  default_size : Option (Int × Int) := none
  orientation : Option GtkOrientation := none
  spacing : Int := 0
  margin_top : Int := 0
  margin_bottom : Int := 0
  margin_start : Int := 0
  margin_end : Int := 0
  child : Gpointer := none
  children : List Nat := []
  label : Option String := none
  handlers : List SignalConnection := []
  status : WindowStatus := WindowStatus.hidden
  deriving DecidableEq, Repr

/-- The toolkit functions called by `main.c`, with their arguments. -/
inductive Call
  | gtk_application_new (application_id : String) (flags : Nat)
  | g_signal_connect (inst : Gpointer) (detailed_signal : String)
      (c_handler : Callback) (data : Gpointer)
  | g_application_run (app : Gpointer) (argc : Int) (argv : List String)
  | g_object_unref (object : Gpointer)
  | gtk_application_window_new (app : Gpointer)
  | gtk_window_set_title (window : Gpointer) (title : String)
  | gtk_window_set_default_size (window : Gpointer) (width height : Int)
  | gtk_box_new (orientation : GtkOrientation) (spacing : Int)
  | gtk_widget_set_margin_top (widget : Gpointer) (margin : Int)
  | gtk_widget_set_margin_bottom (widget : Gpointer) (margin : Int)
  | gtk_widget_set_margin_start (widget : Gpointer) (margin : Int)
  | gtk_widget_set_margin_end (widget : Gpointer) (margin : Int)
  | gtk_window_set_child (window : Gpointer) (child : Gpointer)
  | gtk_button_new_with_label (label : String)
  | gtk_box_append (box : Gpointer) (child : Gpointer)
  | gtk_window_present (window : Gpointer)
  | gtk_window_close (window : Gpointer)
  deriving DecidableEq, Repr

/-- The toolkit state: the object table and the calls made so far. -/
structure Toolkit where
  objects : List GObject
  calls : List Call
  deriving DecidableEq, Repr

/-- A fresh process: no object exists, no call has been made. -/
def Toolkit.init : Toolkit := { objects := [], calls := [] }

/-- Allocation of a new object; its pointer is the next free index. -/
def Toolkit.alloc (tk : Toolkit) (o : GObject) : Toolkit :=
  { tk with objects := tk.objects ++ [o] }

/-- Update of the object behind pointer `p`.  Nothing happens when `p` is `NULL`,
dangling, or points to an object that fails the type check `ok` (the toolkit
returns early in these cases). -/
def Toolkit.update (tk : Toolkit) (p : Gpointer) (ok : GObject → Bool)
    (f : GObject → GObject) : Toolkit :=
  match p with
  | none => tk
  | some i =>
    match tk.objects[i]? with
    | none => tk
    | some o => if ok o then { tk with objects := tk.objects.set i (f o) } else tk

/-- The test `G_IS_APPLICATION`. -/
def GObject.isApplication (o : GObject) : Bool := o.gtype = GType.GTK_TYPE_APPLICATION

/-- The test `GTK_IS_WINDOW`. -/
def GObject.isWindow (o : GObject) : Bool := o.gtype = GType.GTK_TYPE_APPLICATION_WINDOW

/-- The test `GTK_IS_BOX`. -/
def GObject.isBox (o : GObject) : Bool := o.gtype = GType.GTK_TYPE_BOX

/-- The test `GTK_IS_BUTTON`. -/
def GObject.isButton (o : GObject) : Bool := o.gtype = GType.GTK_TYPE_BUTTON

/-- The effect of one toolkit call on the object table (the call is also
appended to the history).  A constructor always succeeds and puts the new object
at the next free index; `gtk_application_window_new` takes its `GtkApplication*`
argument as the C type states and records it as the window's application.  A
setter changes one property of the object it is given.  `gtk_window_present`
opens the window it is given, whatever its status was; `gtk_window_close` closes
it.  `g_object_unref` drops one reference (finalisation is not modelled). -/
def perform (c : Call) (tk0 : Toolkit) : Toolkit :=
  let tk : Toolkit := { tk0 with calls := tk0.calls ++ [c] }
  match c with
  | Call.gtk_application_new application_id flags =>
    tk.alloc { gtype := GType.GTK_TYPE_APPLICATION, application_id := application_id,
               flags := flags }
  | Call.g_signal_connect inst detailed_signal c_handler data =>
    tk.update inst (fun _ => true)
      (fun o => { o with handlers := o.handlers ++ [⟨detailed_signal, c_handler, data⟩] })
  | Call.g_application_run _ _ _ => tk
  | Call.g_object_unref object =>
    tk.update object (fun _ => true) (fun o => { o with ref_count := o.ref_count - 1 })
  | Call.gtk_application_window_new app =>
    tk.alloc { gtype := GType.GTK_TYPE_APPLICATION_WINDOW, application := app }
  | Call.gtk_window_set_title window title =>
    tk.update window GObject.isWindow (fun o => { o with title := some title })
  | Call.gtk_window_set_default_size window width height =>
    tk.update window GObject.isWindow (fun o => { o with default_size := some (width, height) })
  | Call.gtk_box_new orientation spacing =>
    tk.alloc { gtype := GType.GTK_TYPE_BOX, orientation := some orientation,
               spacing := spacing }
  | Call.gtk_widget_set_margin_top widget margin =>
    tk.update widget (fun _ => true) (fun o => { o with margin_top := margin })
  | Call.gtk_widget_set_margin_bottom widget margin =>
    tk.update widget (fun _ => true) (fun o => { o with margin_bottom := margin })
  | Call.gtk_widget_set_margin_start widget margin =>
    tk.update widget (fun _ => true) (fun o => { o with margin_start := margin })
  | Call.gtk_widget_set_margin_end widget margin =>
    tk.update widget (fun _ => true) (fun o => { o with margin_end := margin })
  | Call.gtk_window_set_child window child =>
    tk.update window GObject.isWindow (fun o => { o with child := child })
  | Call.gtk_button_new_with_label label =>
    tk.alloc { gtype := GType.GTK_TYPE_BUTTON, label := some label }
  | Call.gtk_box_append box child =>
    tk.update box GObject.isBox (fun o => { o with children := o.children ++ child.toList })
  | Call.gtk_window_present window =>
    tk.update window GObject.isWindow (fun o => { o with status := WindowStatus.opened })
  | Call.gtk_window_close window =>
    tk.update window GObject.isWindow (fun o => { o with status := WindowStatus.closed })

/-- Replay of a sequence of calls, first call first. -/
def replay (cs : List Call) (tk : Toolkit) : Toolkit :=
  cs.foldl (fun t c => perform c t) tk

/-! ## The toolkit functions, as called from C -/

/-- The checked cast `GTK_WIDGET(p)`: the pointer itself. -/
def GTK_WIDGET (p : Gpointer) : Gpointer := p

/-- The checked cast `GTK_WINDOW(p)`: the pointer itself (the callee tests the type). -/
def GTK_WINDOW (p : Gpointer) : Gpointer := p

/-- The checked cast `GTK_BOX(p)`: the pointer itself (the callee tests the type). -/
def GTK_BOX (p : Gpointer) : Gpointer := p

/-- The cast `G_APPLICATION(p)`: the pointer itself. -/
def G_APPLICATION (p : Gpointer) : Gpointer := p

/-- The cast `G_CALLBACK(f)`: the function pointer itself. -/
def G_CALLBACK (f : Callback) : Callback := f

/-- `gtk_application_new`: returns the pointer to the new application. -/
def gtk_application_new (application_id : String) (flags : Nat) (tk : Toolkit) :
    Gpointer × Toolkit :=
  (some tk.objects.length, perform (Call.gtk_application_new application_id flags) tk)

/-- `g_signal_connect`. -/
def g_signal_connect (inst : Gpointer) (detailed_signal : String) (c_handler : Callback)
    (data : Gpointer) (tk : Toolkit) : Toolkit :=
  perform (Call.g_signal_connect inst detailed_signal c_handler data) tk

/-- `g_object_unref`. -/
def g_object_unref (object : Gpointer) (tk : Toolkit) : Toolkit :=
  perform (Call.g_object_unref object) tk

/-- `gtk_application_window_new`: returns the pointer to the new window. -/
def gtk_application_window_new (app : Gpointer) (tk : Toolkit) : Gpointer × Toolkit :=
  (some tk.objects.length, perform (Call.gtk_application_window_new app) tk)

/-- `gtk_window_set_title`. -/
def gtk_window_set_title (window : Gpointer) (title : String) (tk : Toolkit) : Toolkit :=
  perform (Call.gtk_window_set_title window title) tk

/-- `gtk_window_set_default_size`. -/
def gtk_window_set_default_size (window : Gpointer) (width height : Int) (tk : Toolkit) :
    Toolkit :=
  perform (Call.gtk_window_set_default_size window width height) tk

/-- `gtk_box_new`: returns the pointer to the new box. -/
def gtk_box_new (orientation : GtkOrientation) (spacing : Int) (tk : Toolkit) :
    Gpointer × Toolkit :=
  (some tk.objects.length, perform (Call.gtk_box_new orientation spacing) tk)

/-- `gtk_widget_set_margin_top`. -/
def gtk_widget_set_margin_top (widget : Gpointer) (margin : Int) (tk : Toolkit) : Toolkit :=
  perform (Call.gtk_widget_set_margin_top widget margin) tk

/-- `gtk_widget_set_margin_bottom`. -/
def gtk_widget_set_margin_bottom (widget : Gpointer) (margin : Int) (tk : Toolkit) : Toolkit :=
  perform (Call.gtk_widget_set_margin_bottom widget margin) tk

/-- `gtk_widget_set_margin_start`. -/
def gtk_widget_set_margin_start (widget : Gpointer) (margin : Int) (tk : Toolkit) : Toolkit :=
  perform (Call.gtk_widget_set_margin_start widget margin) tk

/-- `gtk_widget_set_margin_end`. -/
def gtk_widget_set_margin_end (widget : Gpointer) (margin : Int) (tk : Toolkit) : Toolkit :=
  perform (Call.gtk_widget_set_margin_end widget margin) tk

/-- `gtk_window_set_child`. -/
def gtk_window_set_child (window : Gpointer) (child : Gpointer) (tk : Toolkit) : Toolkit :=
  perform (Call.gtk_window_set_child window child) tk

/-- `gtk_button_new_with_label`: returns the pointer to the new button. -/
def gtk_button_new_with_label (label : String) (tk : Toolkit) : Gpointer × Toolkit :=
  (some tk.objects.length, perform (Call.gtk_button_new_with_label label) tk)

/-- `gtk_box_append`. -/
def gtk_box_append (box : Gpointer) (child : Gpointer) (tk : Toolkit) : Toolkit :=
  perform (Call.gtk_box_append box child) tk

/-- `gtk_window_present`. -/
def gtk_window_present (window : Gpointer) (tk : Toolkit) : Toolkit :=
  perform (Call.gtk_window_present window) tk

/-- `gtk_window_close`. -/
def gtk_window_close (window : Gpointer) (tk : Toolkit) : Toolkit :=
  perform (Call.gtk_window_close window) tk

/-! ## `main.c` -/

/-- `static void on_button_clicked(GtkWidget *button, gpointer user_data)`. -/
def on_button_clicked (_button : Gpointer) (user_data : Gpointer) (tk : Toolkit) : Toolkit :=
  let window := GTK_WIDGET user_data
  gtk_window_close (GTK_WINDOW window) tk

/-- `static void activate(GtkApplication* app, gpointer user_data)`. -/
def activate (app : Gpointer) (_user_data : Gpointer) (tk : Toolkit) : Toolkit :=
  let (window, tk) := gtk_application_window_new app tk
  let tk := gtk_window_set_title (GTK_WINDOW window) "Simple GTK4 App" tk
  let tk := gtk_window_set_default_size (GTK_WINDOW window) 300 200 tk
  let (box, tk) := gtk_box_new GtkOrientation.GTK_ORIENTATION_VERTICAL 12 tk
  let tk := gtk_widget_set_margin_top box 12 tk
  let tk := gtk_widget_set_margin_bottom box 12 tk
  let tk := gtk_widget_set_margin_start box 12 tk
  let tk := gtk_widget_set_margin_end box 12 tk
  let tk := gtk_window_set_child (GTK_WINDOW window) box tk
  let (button, tk) := gtk_button_new_with_label "Hello GTK4!" tk
  let tk := g_signal_connect button "clicked" (G_CALLBACK Callback.on_button_clicked) window tk
  let tk := gtk_box_append (GTK_BOX box) button tk
  gtk_window_present (GTK_WINDOW window) tk

/-- What the toolkit does inside `g_application_run` (its event loop and the exit
code it reports) is not part of this program: it is a parameter. -/
abbrev RunLoop := Gpointer → Int → List String → Toolkit → Int × Toolkit

/-- `g_application_run`: the call is recorded, then the toolkit's loop runs. -/
def g_application_run (loop : RunLoop) (app : Gpointer) (argc : Int) (argv : List String)
    (tk : Toolkit) : Int × Toolkit :=
  loop app argc argv (perform (Call.g_application_run app argc argv) tk)

/-- `int main(int argc, char **argv)`. -/
def main (loop : RunLoop) (argc : Int) (argv : List String) (tk : Toolkit) : Int × Toolkit :=
  let (app, tk) := gtk_application_new "com.example.gtk4_app" G_APPLICATION_DEFAULT_FLAGS tk
  let tk := g_signal_connect app "activate" (G_CALLBACK Callback.activate) none tk
  let (status, tk) := g_application_run loop (G_APPLICATION app) argc argv tk
  let tk := g_object_unref app tk
  (status, tk)

/-! ## Signal emission and the event steps -/

/-- The toolkit calling back into the program through a connected handler. -/
def invoke (cb : Callback) (inst : Gpointer) (data : Gpointer) (tk : Toolkit) : Toolkit :=
  match cb with
  | Callback.on_button_clicked => on_button_clicked inst data tk
  | Callback.activate => activate inst data tk

/-- Emission of signal `sig` on object `i`: the handlers connected to that signal
on that object run in connection order. -/
def g_signal_emit (i : Nat) (sig : String) (tk : Toolkit) : Toolkit :=
  match tk.objects[i]? with
  | none => tk
  | some o =>
    (o.handlers.filter (fun c => c.detailed_signal = sig)).foldl
      (fun t c => invoke c.c_handler (some i) c.data t) tk

/-- The two ways the toolkit enters this program: the activation callback, and a
click on some object (which reaches the program through the "clicked" signal). -/
inductive Event
  | activate (app : Gpointer) (user_data : Gpointer)
  | clicked (button : Nat)
  deriving DecidableEq, Repr

/-- One step of the program. -/
def step (e : Event) (tk : Toolkit) : Toolkit :=
  match e with
  | Event.activate app user_data => activate app user_data tk
  | Event.clicked button => g_signal_emit button "clicked" tk

/-- A sequence of steps, first event first. -/
def runEvents (es : List Event) (tk : Toolkit) : Toolkit :=
  es.foldl (fun t e => step e t) tk

/-! ## Observations on the toolkit state -/

/-- The open/closed status of object `i`, when `i` is a window. -/
def windowStatus (tk : Toolkit) (i : Nat) : Option WindowStatus :=
  (tk.objects[i]?).bind fun o => if o.isWindow then some o.status else none

/-- The element of a one-element list. -/
def only (l : List Nat) : Option Nat :=
  match l with
  | [t] => some t
  | _ => none

/-- The widget tree under window `i`, when it has the shape
window → one box → one button: the window, the box pointer, the box, the button
pointer and the button. -/
def treeOf (tk : Toolkit) (i : Nat) : Option (GObject × Nat × GObject × Nat × GObject) :=
  (tk.objects[i]?).bind fun w =>
  if w.isWindow then
    w.child.bind fun b =>
    (tk.objects[b]?).bind fun bx =>
    if bx.isBox then
      (only bx.children).bind fun t =>
      (tk.objects[t]?).bind fun bt =>
      if bt.isButton then some (w, b, bx, t, bt) else none
    else none
  else none

/-- The button of window `i`: the single child of the window's child box. -/
def buttonOf (tk : Toolkit) (i : Nat) : Option Nat :=
  (treeOf tk i).map fun r => r.2.2.2.1

/-- A signal connection seen from a window: the user data is reported only as
"is this window" or not. -/
structure HandlerView where
  detailed_signal : String
  c_handler : Callback
  data_is_window : Bool
  deriving DecidableEq, Repr

/-- A window description, free of pointers and of the open/closed status: title,
default size, the layout box and the button with its handlers. -/
structure WindowView where
  title : Option String
  default_size : Option (Int × Int)
  orientation : Option GtkOrientation
  spacing : Int
  margin_top : Int
  margin_bottom : Int
  margin_start : Int
  margin_end : Int
  button_label : Option String
  button_handlers : List HandlerView
  deriving DecidableEq, Repr

/-- The view of one connection from window `i`. -/
def viewHandler (i : Nat) (c : SignalConnection) : HandlerView :=
  { detailed_signal := c.detailed_signal, c_handler := c.c_handler,
    data_is_window := decide (c.data = some i) }

/-- The description of window `i`, when its widget tree has the shape
window → box → button. -/
def describe (tk : Toolkit) (i : Nat) : Option WindowView :=
  (treeOf tk i).map fun r =>
    { title := r.1.title, default_size := r.1.default_size,
      orientation := r.2.2.1.orientation, spacing := r.2.2.1.spacing,
      margin_top := r.2.2.1.margin_top, margin_bottom := r.2.2.1.margin_bottom,
      margin_start := r.2.2.1.margin_start, margin_end := r.2.2.1.margin_end,
      button_label := r.2.2.2.2.label,
      button_handlers := r.2.2.2.2.handlers.map (viewHandler i) }

/-- The description of the window this program builds. -/
def demoView : WindowView :=
  { title := some "Simple GTK4 App", default_size := some (300, 200),
    orientation := some GtkOrientation.GTK_ORIENTATION_VERTICAL, spacing := 12,
    margin_top := 12, margin_bottom := 12, margin_start := 12, margin_end := 12,
    button_label := some "Hello GTK4!",
    button_handlers := [⟨"clicked", Callback.on_button_clicked, true⟩] }

/-- Whether a call is `gtk_window_present`. -/
def Call.isPresent (c : Call) : Bool :=
  match c with
  | Call.gtk_window_present _ => true
  | _ => false

/-- Whether a call is `g_signal_connect`. -/
def Call.isConnect (c : Call) : Bool :=
  match c with
  | Call.g_signal_connect _ _ _ _ => true
  | _ => false

/-! ## The objects and calls of one activation -/

/-- The window object left by an activation whose first free index was `n`
(shown equal to what `activate` computes in `activate_eq`). -/
def builtWindow (app : Gpointer) (n : Nat) (st : WindowStatus) : GObject :=
  { gtype := GType.GTK_TYPE_APPLICATION_WINDOW, application := app,
    title := some "Simple GTK4 App", default_size := some (300, 200),
    child := some (n + 1), status := st }

/-- The box object of an activation whose first free index was `n`. -/
def builtBox (n : Nat) : GObject :=
  { gtype := GType.GTK_TYPE_BOX,
    orientation := some GtkOrientation.GTK_ORIENTATION_VERTICAL, spacing := 12,
    margin_top := 12, margin_bottom := 12, margin_start := 12, margin_end := 12,
    children := [n + 2] }

/-- The button object of an activation whose first free index was `n`. -/
def builtButton (n : Nat) : GObject :=
  { gtype := GType.GTK_TYPE_BUTTON, label := some "Hello GTK4!",
    handlers := [⟨"clicked", Callback.on_button_clicked, some n⟩] }

/-- The toolkit calls that a run of `activate` makes when the first free index is
`n` (shown equal to the recorded calls in `activate_calls_drop`). -/
def activateCalls (app : Gpointer) (n : Nat) : List Call :=
  [ Call.gtk_application_window_new app,
    Call.gtk_window_set_title (some n) "Simple GTK4 App",
    Call.gtk_window_set_default_size (some n) 300 200,
    Call.gtk_box_new GtkOrientation.GTK_ORIENTATION_VERTICAL 12,
    Call.gtk_widget_set_margin_top (some (n + 1)) 12,
    Call.gtk_widget_set_margin_bottom (some (n + 1)) 12,
    Call.gtk_widget_set_margin_start (some (n + 1)) 12,
    Call.gtk_widget_set_margin_end (some (n + 1)) 12,
    Call.gtk_window_set_child (some n) (some (n + 1)),
    Call.gtk_button_new_with_label "Hello GTK4!",
    Call.g_signal_connect (some (n + 2)) "clicked" Callback.on_button_clicked (some n),
    Call.gtk_box_append (some (n + 1)) (some (n + 2)),
    Call.gtk_window_present (some n) ]

/-! ## Relations between toolkit states -/

/-- What may happen to one object: nothing, or it is a window and is closed. -/
def ObjStep (x y : GObject) : Prop :=
  y = x ∨ (x.isWindow = true ∧ y = { x with status := WindowStatus.closed })

/-- Object `y` is object `x` up to the open/closed status. -/
def SameButStatus (x y : GObject) : Prop :=
  y = { x with status := y.status }

/-- Every object of `tk` is still there in `tk2`, up to its status. -/
def Similar (tk tk2 : Toolkit) : Prop :=
  ∀ (j : Nat) (x : GObject), tk.objects[j]? = some x →
    ∃ y, tk2.objects[j]? = some y ∧ SameButStatus x y

/-- Every object of `tk` is still there in `tk2`, unchanged or closed. -/
def Evolves (tk tk2 : Toolkit) : Prop :=
  ∀ (j : Nat) (x : GObject), tk.objects[j]? = some x →
    ∃ y, tk2.objects[j]? = some y ∧ ObjStep x y

/-- A toolkit state before the first activation: every object is an application
and no handler is connected to a "clicked" signal.  The fresh process and the
state `main` hands to the run loop are of this kind. -/
def Toolkit.atStartup (tk : Toolkit) : Bool :=
  tk.objects.all fun o =>
    o.isApplication && o.handlers.all fun c => c.detailed_signal != "clicked"

/-- The state in which the run loop starts when `main` is launched in a fresh
process: the application exists and `activate` is connected to it (see
`main_from_init`). -/
def Toolkit.launched : Toolkit :=
  let (app, tk) :=
    gtk_application_new "com.example.gtk4_app" G_APPLICATION_DEFAULT_FLAGS Toolkit.init
  g_signal_connect app "activate" (G_CALLBACK Callback.activate) none tk

/-- The calls `activate` makes when run in state `tk`. -/
def callsOfActivate (app user_data : Gpointer) (tk : Toolkit) : List Call :=
  (activate app user_data tk).calls.drop tk.calls.length

/-- The toolkit state after the first `k` calls of a run of `activate` in `tk`. -/
def duringActivate (app user_data : Gpointer) (tk : Toolkit) (k : Nat) : Toolkit :=
  replay ((callsOfActivate app user_data tk).take k) tk

/-- The state invariant of the program: a "clicked" handler sits on a button
only, and is the click handler alone; every window has been presented and has
the complete widget tree. -/
def Inv (tk : Toolkit) : Prop :=
  ∀ (i : Nat) (o : GObject), tk.objects[i]? = some o →
    (o.handlers = [] ∨
      (o.isButton = true ∧
        ∃ w, o.handlers = [⟨"clicked", Callback.on_button_clicked, some w⟩]) ∨
      (o.isApplication = true ∧ ∀ c ∈ o.handlers, c.detailed_signal ≠ "clicked")) ∧
    (o.isWindow = true → o.status ≠ WindowStatus.hidden ∧ describe tk i = some demoView)

/-! ## Lemmas on the toolkit model -/

theorem update_append (l r : List GObject) (cs : List Call) (k : Nat)
    (ok : GObject → Bool) (f : GObject → GObject) :
    Toolkit.update ⟨l ++ r, cs⟩ (some (l.length + k)) ok f
      = ⟨l ++ (Toolkit.update ⟨r, cs⟩ (some k) ok f).objects, cs⟩ := by
  simp only [Toolkit.update]
  rw [List.getElem?_append_right (Nat.le_add_right _ _)]
  simp only [Nat.add_sub_cancel_left]
  cases h : r[k]? with
  | none => simp
  | some o =>
    by_cases hk : ok o = true
    · simp [hk, List.set_append]
    · simp [hk]

theorem update_append0 (l r : List GObject) (cs : List Call)
    (ok : GObject → Bool) (f : GObject → GObject) :
    Toolkit.update ⟨l ++ r, cs⟩ (some l.length) ok f
      = ⟨l ++ (Toolkit.update ⟨r, cs⟩ (some 0) ok f).objects, cs⟩ :=
  update_append l r cs 0 ok f

theorem activate_eq (app user_data : Gpointer) (tk : Toolkit) :
    activate app user_data tk =
      { objects := tk.objects ++ [builtWindow app tk.objects.length WindowStatus.opened,
          builtBox tk.objects.length, builtButton tk.objects.length],
        calls := tk.calls ++ activateCalls app tk.objects.length } := by
  obtain ⟨objs, cs⟩ := tk
  simp only [activate, gtk_application_window_new, gtk_window_set_title,
    gtk_window_set_default_size, gtk_box_new, gtk_widget_set_margin_top,
    gtk_widget_set_margin_bottom, gtk_widget_set_margin_start, gtk_widget_set_margin_end,
    gtk_window_set_child, gtk_button_new_with_label, g_signal_connect, gtk_box_append,
    gtk_window_present, GTK_WINDOW, GTK_BOX, G_CALLBACK, perform, Toolkit.alloc]
  simp only [List.length_append, List.length_singleton, List.append_assoc, List.singleton_append,
    update_append0, update_append]
  simp [Toolkit.update, GObject.isWindow, GObject.isBox, builtWindow, builtBox, builtButton,
    activateCalls]

/-- The objects created by the first `k` calls of `activate`. -/
theorem replay_take_activateCalls (app : Gpointer) (tk : Toolkit) (k : Nat) (hk : k ≤ 12) :
    ∃ new, replay ((activateCalls app tk.objects.length).take k) tk
        = ⟨tk.objects ++ new, tk.calls ++ (activateCalls app tk.objects.length).take k⟩ ∧
      ∀ o ∈ new, o.status = WindowStatus.hidden := by
  obtain ⟨objs, cs⟩ := tk
  interval_cases k <;>
  · simp only [replay, activateCalls, List.take, List.foldl, perform, Toolkit.alloc]
    try simp only [List.length_append, List.length_singleton, List.append_assoc,
      List.singleton_append, update_append0, update_append]
    simp [Toolkit.update, GObject.isWindow, GObject.isBox]

theorem replay_activateCalls (app user_data : Gpointer) (tk : Toolkit) :
    replay (activateCalls app tk.objects.length) tk = activate app user_data tk := by
  rw [activate_eq]
  obtain ⟨objs, cs⟩ := tk
  simp only [replay, activateCalls, List.foldl, perform, Toolkit.alloc]
  simp only [List.length_append, List.length_singleton, List.append_assoc,
    List.singleton_append, update_append0, update_append]
  simp [Toolkit.update, GObject.isWindow, GObject.isBox, builtWindow, builtBox, builtButton]

theorem replay_built (app : Gpointer) (tk : Toolkit) :
    replay ((activateCalls app tk.objects.length).take 12) tk
      = ⟨tk.objects ++ [builtWindow app tk.objects.length WindowStatus.hidden,
          builtBox tk.objects.length, builtButton tk.objects.length],
         tk.calls ++ (activateCalls app tk.objects.length).take 12⟩ := by
  obtain ⟨objs, cs⟩ := tk
  simp only [replay, activateCalls, List.take, List.foldl, perform, Toolkit.alloc]
  simp only [List.length_append, List.length_singleton, List.append_assoc,
    List.singleton_append, update_append0, update_append]
  simp [Toolkit.update, GObject.isWindow, GObject.isBox, builtWindow, builtBox, builtButton]

/-! ### What one callback does to the objects -/

theorem on_button_clicked_eq (button user_data : Gpointer) (tk : Toolkit) :
    on_button_clicked button user_data tk =
      Toolkit.update ⟨tk.objects, tk.calls ++ [Call.gtk_window_close user_data]⟩ user_data
        GObject.isWindow (fun o => { o with status := WindowStatus.closed }) := by
  simp [on_button_clicked, gtk_window_close, GTK_WIDGET, GTK_WINDOW, perform]

theorem on_button_clicked_window (button : Gpointer) (w : Nat) (o : GObject) (tk : Toolkit)
    (h : tk.objects[w]? = some o) (hw : o.isWindow = true) :
    on_button_clicked button (some w) tk =
      ⟨tk.objects.set w { o with status := WindowStatus.closed },
       tk.calls ++ [Call.gtk_window_close (some w)]⟩ := by
  simp [on_button_clicked_eq, Toolkit.update, h, hw]

theorem on_button_clicked_objects (button user_data : Gpointer) (tk : Toolkit) :
    (on_button_clicked button user_data tk).objects = tk.objects ∨
      ∃ w o, user_data = some w ∧ tk.objects[w]? = some o ∧ o.isWindow = true ∧
        (on_button_clicked button user_data tk).objects
          = tk.objects.set w { o with status := WindowStatus.closed } := by
  cases user_data with
  | none => left; simp [on_button_clicked_eq, Toolkit.update]
  | some w =>
    cases h : tk.objects[w]? with
    | none => left; simp [on_button_clicked_eq, Toolkit.update, h]
    | some o =>
      by_cases hw : o.isWindow = true
      · right
        exact ⟨w, o, rfl, h, hw, by rw [on_button_clicked_window button w o tk h hw]⟩
      · left; simp [on_button_clicked_eq, Toolkit.update, h, hw]

theorem objStep_refl (x : GObject) : ObjStep x x := Or.inl rfl

theorem objStep_trans {x y z : GObject} (h1 : ObjStep x y) (h2 : ObjStep y z) : ObjStep x z := by
  rcases h1 with rfl | ⟨hx, rfl⟩
  · exact h2
  · rcases h2 with rfl | ⟨_, rfl⟩
    · exact Or.inr ⟨hx, rfl⟩
    · exact Or.inr ⟨hx, rfl⟩

theorem evolves_refl (tk : Toolkit) : Evolves tk tk :=
  fun _ x h => ⟨x, h, objStep_refl x⟩

theorem evolves_trans {a b c : Toolkit} (h1 : Evolves a b) (h2 : Evolves b c) : Evolves a c := by
  intro j x hx
  obtain ⟨y, hy, hxy⟩ := h1 j x hx
  obtain ⟨z, hz, hyz⟩ := h2 j y hy
  exact ⟨z, hz, objStep_trans hxy hyz⟩

theorem lt_length_of_getElem? {l : List GObject} {j : Nat} {x : GObject}
    (h : l[j]? = some x) : j < l.length := by
  rcases List.getElem?_eq_some.mp h with ⟨hlt, _⟩
  exact hlt

theorem evolves_activate (app user_data : Gpointer) (tk : Toolkit) :
    Evolves tk (activate app user_data tk) := by
  intro j x hx
  refine ⟨x, ?_, objStep_refl x⟩
  rw [activate_eq]
  simp only
  rw [List.getElem?_append_left (lt_length_of_getElem? hx)]
  exact hx

theorem evolves_on_button_clicked (button user_data : Gpointer) (tk : Toolkit) :
    Evolves tk (on_button_clicked button user_data tk) := by
  intro j x hx
  rcases on_button_clicked_objects button user_data tk with h | ⟨w, o, _, ho, hw, h⟩
  · exact ⟨x, by rw [h]; exact hx, objStep_refl x⟩
  · rw [h, List.getElem?_set]
    by_cases hj : w = j
    · subst hj
      rw [ho] at hx
      cases hx
      refine ⟨_, ?_, Or.inr ⟨hw, rfl⟩⟩
      simp [lt_length_of_getElem? ho]
    · exact ⟨x, by simp [hj, hx], objStep_refl x⟩

theorem evolves_invoke (cb : Callback) (inst data : Gpointer) (tk : Toolkit) :
    Evolves tk (invoke cb inst data tk) := by
  cases cb with
  | on_button_clicked => exact evolves_on_button_clicked inst data tk
  | activate => exact evolves_activate inst data tk

theorem evolves_foldl_invoke (i : Nat) (cs : List SignalConnection) (tk : Toolkit) :
    Evolves tk (cs.foldl (fun t c => invoke c.c_handler (some i) c.data t) tk) := by
  induction cs generalizing tk with
  | nil => exact evolves_refl tk
  | cons c cs ih => exact evolves_trans (evolves_invoke _ _ _ tk) (ih _)

theorem evolves_g_signal_emit (i : Nat) (sig : String) (tk : Toolkit) :
    Evolves tk (g_signal_emit i sig tk) := by
  unfold g_signal_emit
  cases tk.objects[i]? with
  | none => exact evolves_refl tk
  | some o => exact evolves_foldl_invoke i _ tk

theorem evolves_step (e : Event) (tk : Toolkit) : Evolves tk (step e tk) := by
  cases e with
  | activate app user_data => exact evolves_activate app user_data tk
  | clicked button => exact evolves_g_signal_emit button "clicked" tk

theorem evolves_runEvents (es : List Event) (tk : Toolkit) : Evolves tk (runEvents es tk) := by
  induction es generalizing tk with
  | nil => exact evolves_refl tk
  | cons e es ih => exact evolves_trans (evolves_step e tk) (ih _)

/-! ### The widget tree of a window -/

theorem only_eq_some {l : List Nat} {t : Nat} : only l = some t ↔ l = [t] := by
  unfold only
  split <;> simp_all

theorem treeOf_eq_some (tk : Toolkit) (i : Nat) (w : GObject) (b : Nat) (bx : GObject)
    (t : Nat) (bt : GObject) :
    treeOf tk i = some (w, b, bx, t, bt) ↔
      tk.objects[i]? = some w ∧ w.isWindow = true ∧ w.child = some b ∧
      tk.objects[b]? = some bx ∧ bx.isBox = true ∧ bx.children = [t] ∧
      tk.objects[t]? = some bt ∧ bt.isButton = true := by
  unfold treeOf
  constructor
  · intro h
    cases hw : tk.objects[i]? with
    | none => simp [hw] at h
    | some w0 =>
      simp only [hw, Option.some_bind] at h
      by_cases hw1 : w0.isWindow = true
      · simp only [hw1, if_true] at h
        cases hc : w0.child with
        | none => simp [hc] at h
        | some b0 =>
          simp only [hc, Option.some_bind] at h
          cases hb : tk.objects[b0]? with
          | none => simp [hb] at h
          | some bx0 =>
            simp only [hb, Option.some_bind] at h
            by_cases hb1 : bx0.isBox = true
            · simp only [hb1, if_true] at h
              cases ho : only bx0.children with
              | none => simp [ho] at h
              | some t0 =>
                simp only [ho, Option.some_bind] at h
                cases ht : tk.objects[t0]? with
                | none => simp [ht] at h
                | some bt0 =>
                  simp only [ht, Option.some_bind] at h
                  by_cases ht1 : bt0.isButton = true
                  · simp only [ht1, if_true, Option.some.injEq, Prod.mk.injEq] at h
                    obtain ⟨rfl, rfl, rfl, rfl, rfl⟩ := h
                    exact ⟨rfl, hw1, hc, hb, hb1, only_eq_some.mp ho, ht, ht1⟩
                  · simp [ht1] at h
            · simp [hb1] at h
      · simp [hw1] at h
  · rintro ⟨hw, hw1, hc, hb, hb1, hch, ht, ht1⟩
    simp [hw, hw1, hc, hb, hb1, only_eq_some.mpr hch, ht, ht1]

theorem objStep_same {x y : GObject} (h : ObjStep x y) : SameButStatus x y := by
  rcases h with rfl | ⟨_, rfl⟩ <;> rfl

theorem same_isWindow {x y : GObject} (h : SameButStatus x y) :
    y.isWindow = x.isWindow := by
  unfold SameButStatus at h; rw [h]; rfl

theorem same_isApplication {x y : GObject} (h : SameButStatus x y) :
    y.isApplication = x.isApplication := by
  unfold SameButStatus at h; rw [h]; rfl

theorem same_isBox {x y : GObject} (h : SameButStatus x y) : y.isBox = x.isBox := by
  unfold SameButStatus at h; rw [h]; rfl

theorem same_isButton {x y : GObject} (h : SameButStatus x y) :
    y.isButton = x.isButton := by
  unfold SameButStatus at h; rw [h]; rfl

theorem same_child {x y : GObject} (h : SameButStatus x y) : y.child = x.child := by
  unfold SameButStatus at h; rw [h]

theorem same_children {x y : GObject} (h : SameButStatus x y) :
    y.children = x.children := by
  unfold SameButStatus at h; rw [h]

theorem same_handlers {x y : GObject} (h : SameButStatus x y) :
    y.handlers = x.handlers := by
  unfold SameButStatus at h; rw [h]

theorem objStep_isWindow {x y : GObject} (h : ObjStep x y) : y.isWindow = x.isWindow :=
  same_isWindow (objStep_same h)

theorem objStep_isApplication {x y : GObject} (h : ObjStep x y) :
    y.isApplication = x.isApplication :=
  same_isApplication (objStep_same h)

theorem objStep_isButton {x y : GObject} (h : ObjStep x y) : y.isButton = x.isButton :=
  same_isButton (objStep_same h)

theorem objStep_handlers {x y : GObject} (h : ObjStep x y) : y.handlers = x.handlers :=
  same_handlers (objStep_same h)

theorem objStep_status {x y : GObject} (h : ObjStep x y) :
    y.status = x.status ∨ (x.isWindow = true ∧ y.status = WindowStatus.closed) := by
  rcases h with rfl | ⟨hx, rfl⟩
  · exact Or.inl rfl
  · exact Or.inr ⟨hx, rfl⟩

theorem evolves_similar {tk tk2 : Toolkit} (h : Evolves tk tk2) : Similar tk tk2 := by
  intro j x hx
  obtain ⟨y, hy, hs⟩ := h j x hx
  exact ⟨y, hy, objStep_same hs⟩

theorem treeOf_similar {tk tk2 : Toolkit} (h : Similar tk tk2) {i : Nat} {w : GObject} {b : Nat}
    {bx : GObject} {t : Nat} {bt : GObject} (ht : treeOf tk i = some (w, b, bx, t, bt)) :
    ∃ w2 bx2 bt2, treeOf tk2 i = some (w2, b, bx2, t, bt2) ∧
      SameButStatus w w2 ∧ SameButStatus bx bx2 ∧ SameButStatus bt bt2 := by
  obtain ⟨hw, hw1, hc, hb, hb1, hch, hbt, hbt1⟩ := (treeOf_eq_some tk i w b bx t bt).mp ht
  obtain ⟨w2, hw2, sw⟩ := h i w hw
  obtain ⟨bx2, hbx2, sbx⟩ := h b bx hb
  obtain ⟨bt2, hbt2, sbt⟩ := h t bt hbt
  refine ⟨w2, bx2, bt2, (treeOf_eq_some tk2 i w2 b bx2 t bt2).mpr ?_, sw, sbx, sbt⟩
  exact ⟨hw2, by rw [same_isWindow sw]; exact hw1, by rw [same_child sw]; exact hc, hbx2,
    by rw [same_isBox sbx]; exact hb1, by rw [same_children sbx]; exact hch, hbt2,
    by rw [same_isButton sbt]; exact hbt1⟩

theorem describe_similar {tk tk2 : Toolkit} (h : Similar tk tk2) {i : Nat} {v : WindowView}
    (hd : describe tk i = some v) : describe tk2 i = some v := by
  unfold describe at hd ⊢
  cases ht : treeOf tk i with
  | none => simp [ht] at hd
  | some r =>
    obtain ⟨w, b, bx, t, bt⟩ := r
    obtain ⟨w2, bx2, bt2, ht2, sw, sbx, sbt⟩ := treeOf_similar h ht
    rw [ht] at hd
    rw [ht2]
    rw [← hd]
    simp only [Option.map_some']
    unfold SameButStatus at sw sbx sbt
    rw [sw, sbx, sbt]

theorem describe_evolves {tk tk2 : Toolkit} (h : Evolves tk tk2) {i : Nat} {v : WindowView}
    (hd : describe tk i = some v) : describe tk2 i = some v :=
  describe_similar (evolves_similar h) hd

/-- Two states whose object tables agree up to the status fields have the same
window descriptions. -/
theorem describe_eq_of_erase {tk tk2 : Toolkit}
    (h : ∀ j : Nat, (tk2.objects[j]?).map (fun o => { o with status := WindowStatus.hidden })
      = (tk.objects[j]?).map (fun o => { o with status := WindowStatus.hidden }))
    (i : Nat) : describe tk2 i = describe tk i := by
  have key : ∀ a b : Toolkit,
      (∀ j : Nat, (b.objects[j]?).map (fun o => { o with status := WindowStatus.hidden })
        = (a.objects[j]?).map (fun o => { o with status := WindowStatus.hidden })) →
      Similar a b := by
    intro a b hab j x hx
    have hj := hab j
    rw [hx] at hj
    cases hy : b.objects[j]? with
    | none => simp [hy] at hj
    | some y =>
      refine ⟨y, rfl, ?_⟩
      simp only [hy, Option.map_some', Option.some.injEq] at hj
      unfold SameButStatus
      cases x; cases y
      simp_all
  have h12 := key tk tk2 h
  have h21 := key tk2 tk (fun j => (h j).symm)
  cases hd : describe tk i with
  | some v => exact describe_similar h12 hd
  | none =>
    cases hd2 : describe tk2 i with
    | none => rfl
    | some v =>
      have := describe_similar h21 hd2
      rw [hd] at this
      cases this

/-! ### The invariant -/

theorem treeOf_built (l : List GObject) (cs : List Call) (app : Gpointer) (st : WindowStatus) :
    treeOf ⟨l ++ [builtWindow app l.length st, builtBox l.length, builtButton l.length], cs⟩
        l.length
      = some (builtWindow app l.length st, l.length + 1, builtBox l.length, l.length + 2,
          builtButton l.length) := by
  rw [treeOf_eq_some]
  refine ⟨?_, rfl, rfl, ?_, rfl, rfl, ?_, rfl⟩
  · rw [List.getElem?_append_right (Nat.le_refl _)]; simp
  · rw [List.getElem?_append_right (Nat.le_add_right _ _)]; simp
  · rw [List.getElem?_append_right (Nat.le_add_right _ _)]; simp

theorem describe_built (l : List GObject) (cs : List Call) (app : Gpointer) (st : WindowStatus) :
    describe ⟨l ++ [builtWindow app l.length st, builtBox l.length, builtButton l.length], cs⟩
        l.length = some demoView := by
  unfold describe
  rw [treeOf_built]
  simp [builtWindow, builtBox, builtButton, demoView, viewHandler]

theorem inv_atStartup {tk : Toolkit} (h0 : tk.atStartup = true) : Inv tk := by
  intro i o h
  have hmem : o ∈ tk.objects := List.getElem?_mem h
  simp only [Toolkit.atStartup, List.all_eq_true, Bool.and_eq_true, bne_iff_ne] at h0
  obtain ⟨happ, hh⟩ := h0 o hmem
  refine ⟨Or.inr (Or.inr ⟨happ, hh⟩), fun hw => ?_⟩
  simp only [GObject.isApplication, GObject.isWindow, decide_eq_true_eq] at happ hw
  rw [happ] at hw
  cases hw

theorem inv_of_evolves {tk tk2 : Toolkit} (hi : Inv tk) (he : Evolves tk tk2)
    (hl : tk2.objects.length = tk.objects.length) : Inv tk2 := by
  intro i o2 h2
  have hlt : i < tk.objects.length := hl ▸ lt_length_of_getElem? h2
  obtain ⟨o, ho⟩ : ∃ o, tk.objects[i]? = some o := ⟨tk.objects[i], List.getElem?_eq_getElem hlt⟩
  obtain ⟨y, hy, hs⟩ := he i o ho
  rw [h2] at hy
  cases hy
  obtain ⟨hh, hw⟩ := hi i o ho
  refine ⟨?_, ?_⟩
  · rw [objStep_handlers hs, objStep_isButton hs, objStep_isApplication hs]; exact hh
  · intro hw2
    rw [objStep_isWindow hs] at hw2
    obtain ⟨hne, hd⟩ := hw hw2
    refine ⟨?_, describe_evolves he hd⟩
    rcases objStep_status hs with h | ⟨_, h⟩
    · rw [h]; exact hne
    · rw [h]; decide

theorem inv_activate (app user_data : Gpointer) {tk : Toolkit} (hi : Inv tk) :
    Inv (activate app user_data tk) := by
  intro i o h
  by_cases hlt : i < tk.objects.length
  · have ho : tk.objects[i]? = some o := by
      rw [activate_eq] at h
      simp only at h
      rwa [List.getElem?_append_left hlt] at h
    obtain ⟨hh, hw⟩ := hi i o ho
    exact ⟨hh, fun hw1 => ⟨(hw hw1).1,
      describe_evolves (evolves_activate app user_data tk) (hw hw1).2⟩⟩
  · rw [activate_eq] at h ⊢
    simp only at h
    rw [List.getElem?_append_right (Nat.le_of_not_lt hlt)] at h
    obtain ⟨k, hk⟩ : ∃ k, i = tk.objects.length + k := ⟨i - tk.objects.length, by omega⟩
    subst hk
    simp only [Nat.add_sub_cancel_left] at h
    match k, h with
    | 0, h =>
      simp only [List.getElem?_cons_zero, Option.some.injEq] at h
      subst h
      refine ⟨Or.inl rfl, fun _ => ⟨by simp [builtWindow], ?_⟩⟩
      exact describe_built tk.objects _ app WindowStatus.opened
    | 1, h =>
      simp only [List.getElem?_cons_succ, List.getElem?_cons_zero, Option.some.injEq] at h
      subst h
      exact ⟨Or.inl rfl, fun hw => by simp [builtBox, GObject.isWindow] at hw⟩
    | 2, h =>
      simp only [List.getElem?_cons_succ, List.getElem?_cons_zero, Option.some.injEq] at h
      subst h
      exact ⟨Or.inr (Or.inl ⟨rfl, _, rfl⟩),
        fun hw => by simp [builtButton, GObject.isWindow] at hw⟩
    | k + 3, h => simp at h

theorem length_on_button_clicked (button user_data : Gpointer) (tk : Toolkit) :
    (on_button_clicked button user_data tk).objects.length = tk.objects.length := by
  rcases on_button_clicked_objects button user_data tk with h | ⟨w, o, _, _, _, h⟩ <;>
    rw [h]
  simp

theorem inv_on_button_clicked (button user_data : Gpointer) {tk : Toolkit} (hi : Inv tk) :
    Inv (on_button_clicked button user_data tk) :=
  inv_of_evolves hi (evolves_on_button_clicked button user_data tk)
    (length_on_button_clicked button user_data tk)

/-- In a state satisfying the invariant a click runs no handler, or exactly the
click handler once. -/
theorem emit_clicked_of_inv {tk : Toolkit} (hi : Inv tk) (i : Nat) :
    g_signal_emit i "clicked" tk = tk ∨
      ∃ o w, tk.objects[i]? = some o ∧ o.isButton = true ∧
        o.handlers = [⟨"clicked", Callback.on_button_clicked, some w⟩] ∧
        g_signal_emit i "clicked" tk = on_button_clicked (some i) (some w) tk := by
  unfold g_signal_emit
  cases h : tk.objects[i]? with
  | none => exact Or.inl rfl
  | some o =>
    rcases (hi i o h).1 with hh | ⟨hb, w, hh⟩ | ⟨_, hh⟩
    · left; simp [hh]
    · right
      exact ⟨o, w, rfl, hb, hh, by simp [hh, invoke]⟩
    · left
      have hnil : o.handlers.filter (fun c => c.detailed_signal = "clicked") = [] := by
        rw [List.filter_eq_nil_iff]
        intro c hc
        simpa using hh c hc
      simp only [hnil, List.foldl]

theorem inv_step (e : Event) {tk : Toolkit} (hi : Inv tk) : Inv (step e tk) := by
  cases e with
  | activate app user_data => exact inv_activate app user_data hi
  | clicked button =>
    simp only [step]
    rcases emit_clicked_of_inv hi button with h | ⟨_, w, _, _, _, h⟩
    · rw [h]; exact hi
    · rw [h]; exact inv_on_button_clicked _ _ hi

theorem inv_runEvents (es : List Event) {tk : Toolkit} (hi : Inv tk) : Inv (runEvents es tk) := by
  induction es generalizing tk with
  | nil => exact hi
  | cons e es ih => exact ih (inv_step e hi)

theorem inv_reachable {tk0 : Toolkit} (h0 : tk0.atStartup = true) (es : List Event) :
    Inv (runEvents es tk0) :=
  inv_runEvents es (inv_atStartup h0)

/-! ### More helper lemmas -/

theorem handlers_of_view {i : Nat} {hs : List SignalConnection}
    (h : hs.map (viewHandler i) = [⟨"clicked", Callback.on_button_clicked, true⟩]) :
    hs = [⟨"clicked", Callback.on_button_clicked, some i⟩] := by
  cases hs with
  | nil => simp at h
  | cons c rest =>
    cases rest with
    | cons c2 rest2 => simp at h
    | nil =>
      obtain ⟨s, cb, d⟩ := c
      simp only [List.map, viewHandler, List.cons.injEq, HandlerView.mk.injEq,
        decide_eq_true_eq, and_true] at h
      obtain ⟨rfl, rfl, rfl⟩ := h
      rfl

/-- In a state satisfying the invariant, the button of window `i` carries the
click handler with window `i` as user data, and a click on it closes window `i`
only. -/
theorem click_button_of_inv {tk : Toolkit} (hi : Inv tk) {i b : Nat}
    (hb : buttonOf tk i = some b) :
    ∃ o bt, tk.objects[i]? = some o ∧ o.isWindow = true ∧ tk.objects[b]? = some bt ∧
      bt.handlers = [⟨"clicked", Callback.on_button_clicked, some i⟩] ∧
      step (Event.clicked b) tk =
        ⟨tk.objects.set i { o with status := WindowStatus.closed },
         tk.calls ++ [Call.gtk_window_close (some i)]⟩ := by
  unfold buttonOf at hb
  cases ht : treeOf tk i with
  | none => simp [ht] at hb
  | some r =>
    obtain ⟨w, bi, bx, t, bt⟩ := r
    simp only [ht, Option.map_some', Option.some.injEq] at hb
    subst hb
    obtain ⟨hw, hw1, _, _, _, _, hbt, _⟩ := (treeOf_eq_some tk i w bi bx t bt).mp ht
    have hd := ((hi i w hw).2 hw1).2
    simp only [describe, ht, Option.map_some', Option.some.injEq, demoView,
      WindowView.mk.injEq] at hd
    have hh := handlers_of_view hd.2.2.2.2.2.2.2.2.2
    refine ⟨w, bt, hw, hw1, hbt, hh, ?_⟩
    simp only [step, g_signal_emit, hbt, hh]
    simp only [List.filter, decide_True, List.foldl, invoke]
    exact on_button_clicked_window (some t) i w tk hw hw1

theorem windowStatus_eq_some {tk : Toolkit} {i : Nat} {s : WindowStatus} :
    windowStatus tk i = some s ↔
      ∃ o, tk.objects[i]? = some o ∧ o.isWindow = true ∧ o.status = s := by
  unfold windowStatus
  cases h : tk.objects[i]? with
  | none => simp
  | some o =>
    by_cases hw : o.isWindow = true <;> simp [hw]

theorem windowStatus_evolves {tk tk2 : Toolkit} (h : Evolves tk tk2) {i : Nat}
    {s : WindowStatus} (hs : windowStatus tk i = some s) :
    windowStatus tk2 i = some s ∨ windowStatus tk2 i = some WindowStatus.closed := by
  obtain ⟨o, ho, hw, rfl⟩ := windowStatus_eq_some.mp hs
  obtain ⟨y, hy, hstep⟩ := h i o ho
  rcases objStep_status hstep with hst | ⟨_, hst⟩
  · exact Or.inl (windowStatus_eq_some.mpr ⟨y, hy, by rw [objStep_isWindow hstep]; exact hw, hst⟩)
  · exact Or.inr (windowStatus_eq_some.mpr ⟨y, hy, by rw [objStep_isWindow hstep]; exact hw, hst⟩)

theorem windowStatus_ne_hidden {tk : Toolkit} (hi : Inv tk) {i : Nat} {s : WindowStatus}
    (hs : windowStatus tk i = some s) : s ≠ WindowStatus.hidden := by
  obtain ⟨o, ho, hw, rfl⟩ := windowStatus_eq_some.mp hs
  exact ((hi i o ho).2 hw).1

theorem evolves_append (tk : Toolkit) (new : List GObject) (cs : List Call) :
    Evolves tk ⟨tk.objects ++ new, cs⟩ := by
  intro j x hx
  refine ⟨x, ?_, objStep_refl x⟩
  simp only
  rw [List.getElem?_append_left (lt_length_of_getElem? hx)]
  exact hx

theorem set_same_status {l : List GObject} {i : Nat} {o : GObject} (h : l[i]? = some o)
    (hs : o.status = WindowStatus.closed) :
    l.set i { o with status := WindowStatus.closed } = l := by
  have ho : ({ o with status := WindowStatus.closed } : GObject) = o := by
    cases o; simp_all
  rw [ho]
  apply List.ext_getElem?
  intro j
  rw [List.getElem?_set]
  by_cases hj : i = j
  · subst hj; simp [lt_length_of_getElem? h, h]
  · simp [hj]

theorem windowStatus_none_of_le {tk : Toolkit} {i : Nat} (h : tk.objects.length ≤ i) :
    windowStatus tk i = none := by
  simp [windowStatus, List.getElem?_eq_none h]

theorem windowStatus_evolves_none {tk tk2 : Toolkit} (h : Evolves tk tk2)
    (hl : tk2.objects.length = tk.objects.length) {i : Nat} (hs : windowStatus tk i = none) :
    windowStatus tk2 i = none := by
  by_cases hlt : i < tk.objects.length
  · obtain ⟨y, hy, hstep⟩ := h i tk.objects[i] (List.getElem?_eq_getElem hlt)
    have hw : (tk.objects[i]).isWindow = false := by
      simp only [windowStatus, List.getElem?_eq_getElem hlt, Option.some_bind] at hs
      by_contra hc
      simp only [Bool.not_eq_false] at hc
      simp [hc] at hs
    simp [windowStatus, hy, objStep_isWindow hstep, hw]
  · exact windowStatus_none_of_le (by omega)

theorem windowStatus_activate_new (app user_data : Gpointer) (tk : Toolkit) (i : Nat)
    (hs : windowStatus tk i = none) :
    windowStatus (activate app user_data tk) i = none ∨
      windowStatus (activate app user_data tk) i = some WindowStatus.opened := by
  by_cases hlt : i < tk.objects.length
  · left
    rw [← hs, activate_eq]
    simp only [windowStatus]
    rw [List.getElem?_append_left hlt]
  · obtain ⟨k, hk⟩ : ∃ k, i = tk.objects.length + k := ⟨i - tk.objects.length, by omega⟩
    subst hk
    rw [activate_eq]
    simp only [windowStatus]
    rw [List.getElem?_append_right (Nat.le_add_right _ _)]
    simp only [Nat.add_sub_cancel_left]
    match k with
    | 0 => right; rfl
    | 1 => left; rfl
    | 2 => left; rfl
    | k + 3 => left; simp

theorem button_of_describe {tk : Toolkit} {i : Nat} (hd : describe tk i = some demoView) :
    ∃ b bt, buttonOf tk i = some b ∧ tk.objects[b]? = some bt ∧
      bt.handlers = [⟨"clicked", Callback.on_button_clicked, some i⟩] := by
  cases ht : treeOf tk i with
  | none => simp [describe, ht] at hd
  | some r =>
    obtain ⟨w, bi, bx, t, bt⟩ := r
    obtain ⟨_, _, _, _, _, _, hbt, _⟩ := (treeOf_eq_some tk i w bi bx t bt).mp ht
    simp only [describe, ht, Option.map_some', Option.some.injEq, demoView,
      WindowView.mk.injEq] at hd
    exact ⟨t, bt, by simp [buttonOf, ht], hbt, handlers_of_view hd.2.2.2.2.2.2.2.2.2⟩

/-- While `activate` runs from a state satisfying the invariant, every open
window has the complete description. -/
theorem opened_complete_during_activate {tk : Toolkit} (hi : Inv tk) (app user_data : Gpointer)
    (k i : Nat)
    (hs : windowStatus (replay ((activateCalls app tk.objects.length).take k) tk) i
      = some WindowStatus.opened) :
    describe (replay ((activateCalls app tk.objects.length).take k) tk) i = some demoView := by
  by_cases hk : k ≤ 12
  · obtain ⟨new, hrep, hnew⟩ := replay_take_activateCalls app tk k hk
    rw [hrep] at hs ⊢
    obtain ⟨o, ho, hw, hst⟩ := windowStatus_eq_some.mp hs
    simp only at ho
    by_cases hlt : i < tk.objects.length
    · rw [List.getElem?_append_left hlt] at ho
      exact describe_evolves (evolves_append tk new _) ((hi i o ho).2 hw).2
    · rw [List.getElem?_append_right (Nat.le_of_not_lt hlt)] at ho
      have hmem : o ∈ new := List.getElem?_mem ho
      rw [hnew o hmem] at hst
      cases hst
  · have hall : (activateCalls app tk.objects.length).take k
        = activateCalls app tk.objects.length :=
      List.take_of_length_le (by simp [activateCalls]; omega)
    rw [hall, replay_activateCalls app user_data tk] at hs ⊢
    obtain ⟨o, ho, hw, _⟩ := windowStatus_eq_some.mp hs
    exact ((inv_activate app user_data hi i o ho).2 hw).2

theorem activate_calls_drop (app user_data : Gpointer) (tk : Toolkit) :
    (activate app user_data tk).calls.drop tk.calls.length
      = activateCalls app tk.objects.length := by
  rw [activate_eq]
  simp

/-- Launched in a fresh process, `main` hands the state `Toolkit.launched`, with
the run call recorded, to the run loop. -/
theorem main_from_init (loop : RunLoop) (argc : Int) (argv : List String) :
    main loop argc argv Toolkit.init =
      ((loop (some 0) argc argv
          (perform (Call.g_application_run (some 0) argc argv) Toolkit.launched)).1,
        g_object_unref (some 0)
          (loop (some 0) argc argv
            (perform (Call.g_application_run (some 0) argc argv) Toolkit.launched)).2) :=
  rfl

theorem g_object_unref_objects (p : Gpointer) (tk : Toolkit) :
    (g_object_unref p tk).objects = tk.objects ∨
      ∃ i o, p = some i ∧ tk.objects[i]? = some o ∧
        (g_object_unref p tk).objects
          = tk.objects.set i { o with ref_count := o.ref_count - 1 } := by
  cases p with
  | none => left; simp [g_object_unref, perform, Toolkit.update]
  | some i =>
    cases h : tk.objects[i]? with
    | none => left; simp [g_object_unref, perform, Toolkit.update, h]
    | some o =>
      right
      exact ⟨i, o, rfl, h, by simp [g_object_unref, perform, Toolkit.update, h]⟩

/-! ## The claims about `activate` -/

/-- C1: for every application pointer `app`, every `user_data` and every prior
toolkit state, one run of `activate` adds exactly three objects, of which exactly
one is a window and exactly one is a button; the window belongs to `app`, has
title "Simple GTK4 App" and default size 300 x 200, contains (through its single
child box) exactly the button, whose label is "Hello GTK4!", and the window has
been presented (its status is open). -/
theorem activate_creates_one_window (app user_data : Gpointer) (tk : Toolkit) :
    ∃ w bx bt : GObject,
      (activate app user_data tk).objects = tk.objects ++ [w, bx, bt] ∧
      w.isWindow = true ∧ bx.isWindow = false ∧ bt.isWindow = false ∧
      w.isButton = false ∧ bx.isButton = false ∧ bt.isButton = true ∧
      w.application = app ∧
      w.title = some "Simple GTK4 App" ∧ w.default_size = some (300, 200) ∧
      w.child = some (tk.objects.length + 1) ∧ w.children = [] ∧
      bx.child = none ∧ bx.children = [tk.objects.length + 2] ∧
      bt.child = none ∧ bt.children = [] ∧ bt.label = some "Hello GTK4!" ∧
      buttonOf (activate app user_data tk) tk.objects.length = some (tk.objects.length + 2) ∧
      windowStatus (activate app user_data tk) tk.objects.length = some WindowStatus.opened := by
  refine ⟨builtWindow app tk.objects.length WindowStatus.opened, builtBox tk.objects.length,
    builtButton tk.objects.length, by rw [activate_eq], rfl, rfl, rfl, rfl, rfl, rfl, rfl, rfl,
    rfl, rfl, rfl, rfl, rfl, rfl, rfl, rfl, ?_, ?_⟩
  · rw [activate_eq]
    simp [buttonOf, treeOf_built]
  · rw [activate_eq]
    exact windowStatus_eq_some.mpr ⟨_, (treeOf_eq_some _ _ _ _ _ _ _).mp (treeOf_built _ _ _ _) |>.1,
      rfl, rfl⟩

/-- C8: the window built by `activate` has as its child one box; the box is
vertical, has spacing 12 and top, bottom, start and end margins 12, and its
children are exactly the button; the button is not a direct child of the
window. -/
theorem activate_layout_box (app user_data : Gpointer) (tk : Toolkit) :
    ∃ w bx bt : GObject,
      (activate app user_data tk).objects = tk.objects ++ [w, bx, bt] ∧
      w.isWindow = true ∧ w.child = some (tk.objects.length + 1) ∧ w.children = [] ∧
      bx.isBox = true ∧
      bx.orientation = some GtkOrientation.GTK_ORIENTATION_VERTICAL ∧ bx.spacing = 12 ∧
      bx.margin_top = 12 ∧ bx.margin_bottom = 12 ∧ bx.margin_start = 12 ∧ bx.margin_end = 12 ∧
      bx.child = none ∧ bx.children = [tk.objects.length + 2] ∧
      bt.isButton = true ∧ bt.isBox = false ∧
      w.child ≠ some (tk.objects.length + 2) := by
  refine ⟨builtWindow app tk.objects.length WindowStatus.opened, builtBox tk.objects.length,
    builtButton tk.objects.length, by rw [activate_eq], rfl, rfl, rfl, rfl, rfl, rfl, rfl, rfl,
    rfl, rfl, rfl, rfl, rfl, rfl, ?_⟩
  simp [builtWindow]

/-- C5: the description of the window built by `activate` (title, default size,
layout box, button label, connected handler) is one fixed value, whatever the
application pointer, the user data and the prior toolkit state are; any two
activations give the same description; it stays the same under all later events;
and in every state reached from any startup state by any events, every window
has this description. -/
theorem activate_description_fixed :
    (∀ (app user_data : Gpointer) (tk : Toolkit),
      describe (activate app user_data tk) tk.objects.length
        = some { title := some "Simple GTK4 App", default_size := some (300, 200),
                 orientation := some GtkOrientation.GTK_ORIENTATION_VERTICAL, spacing := 12,
                 margin_top := 12, margin_bottom := 12, margin_start := 12, margin_end := 12,
                 button_label := some "Hello GTK4!",
                 button_handlers := [⟨"clicked", Callback.on_button_clicked, true⟩] }) ∧
    (∀ (app user_data app2 user_data2 : Gpointer) (tk tk2 : Toolkit),
      describe (activate app user_data tk) tk.objects.length
        = describe (activate app2 user_data2 tk2) tk2.objects.length) ∧
    (∀ (app user_data : Gpointer) (tk : Toolkit) (es : List Event),
      describe (runEvents es (activate app user_data tk)) tk.objects.length
        = describe (activate app user_data tk) tk.objects.length) ∧
    (∀ (tk0 : Toolkit), tk0.atStartup = true →
      ∀ (es : List Event) (i : Nat) (s : WindowStatus),
      windowStatus (runEvents es tk0) i = some s →
      describe (runEvents es tk0) i = some demoView) := by
  have h1 : ∀ (a u : Gpointer) (t : Toolkit),
      describe (activate a u t) t.objects.length = some demoView := by
    intro a u t
    rw [activate_eq]
    exact describe_built _ _ _ _
  refine ⟨h1, ?_, ?_, ?_⟩
  · intro app user_data app2 user_data2 tk tk2
    rw [h1, h1]
  · intro app user_data tk es
    rw [describe_evolves (evolves_runEvents es _) (h1 app user_data tk), h1]
  · intro tk0 h0 es i s hs
    obtain ⟨o, ho, hw, _⟩ := windowStatus_eq_some.mp hs
    exact ((inv_reachable h0 es i o ho).2 hw).2

/-- Witness for C5: in a launched process, after two activations and a click,
the closed window 1 still has the description of the demo window. -/
theorem activate_description_fixed_witness :
    (Toolkit.launched.atStartup = true ∧
      windowStatus
        (runEvents [Event.activate (some 0) none, Event.activate (some 0) none, Event.clicked 3]
          Toolkit.launched) 1 = some WindowStatus.closed) ∧
      describe
        (runEvents [Event.activate (some 0) none, Event.activate (some 0) none, Event.clicked 3]
          Toolkit.launched) 1 = some demoView :=
  ⟨⟨by decide, by decide⟩,
   activate_description_fixed.2.2.2 Toolkit.launched (by decide) _ 1 WindowStatus.closed
     (by decide)⟩

/-! ## The claims about clicks and the window status -/

/-- C2: the calls of one `activate` contain exactly one `g_signal_connect`: it
connects `on_button_clicked` to the "clicked" signal of the new button with the
window of that same activation as user data, and it is the only handler on that
button.  In every state reached from a startup state by any sequence of
activations and clicks, each window `i` has a button, that button carries exactly
this handler with window `i` as user data, and a click on it changes the object
table in one place only: window `i` becomes closed. -/
theorem click_closes_own_window :
    (∀ (app user_data : Gpointer) (tk : Toolkit),
      ∃ bt, (callsOfActivate app user_data tk).filter Call.isConnect =
          [Call.g_signal_connect (some (tk.objects.length + 2)) "clicked"
            Callback.on_button_clicked (some tk.objects.length)] ∧
        buttonOf (activate app user_data tk) tk.objects.length
          = some (tk.objects.length + 2) ∧
        (activate app user_data tk).objects[tk.objects.length + 2]? = some bt ∧
        bt.handlers = [⟨"clicked", Callback.on_button_clicked, some tk.objects.length⟩]) ∧
    (∀ (tk0 : Toolkit), tk0.atStartup = true →
      ∀ (es : List Event) (i : Nat) (s : WindowStatus),
      windowStatus (runEvents es tk0) i = some s →
      ∃ b o bt, buttonOf (runEvents es tk0) i = some b ∧
        (runEvents es tk0).objects[i]? = some o ∧
        (runEvents es tk0).objects[b]? = some bt ∧
        bt.handlers = [⟨"clicked", Callback.on_button_clicked, some i⟩] ∧
        (step (Event.clicked b) (runEvents es tk0)).objects =
          (runEvents es tk0).objects.set i { o with status := WindowStatus.closed }) := by
  constructor
  · intro app user_data tk
    refine ⟨builtButton tk.objects.length, ?_, ?_, ?_, rfl⟩
    · rw [callsOfActivate, activate_calls_drop]
      rfl
    · rw [activate_eq]
      simp [buttonOf, treeOf_built]
    · rw [activate_eq]
      exact ((treeOf_eq_some _ _ _ _ _ _ _).mp (treeOf_built _ _ _ _)).2.2.2.2.2.2.1
  · intro tk0 h0 es i s hs
    have hi := inv_reachable h0 es
    obtain ⟨o, ho, hw, _⟩ := windowStatus_eq_some.mp hs
    have hd := ((hi i o ho).2 hw).2
    cases ht : treeOf (runEvents es tk0) i with
    | none => simp [describe, ht] at hd
    | some r =>
      have hb : buttonOf (runEvents es tk0) i = some r.2.2.2.1 := by
        simp [buttonOf, ht]
      obtain ⟨o2, bt, ho2, _, hbt, hh, hstep⟩ := click_button_of_inv hi hb
      exact ⟨_, o2, bt, hb, ho2, hbt, hh, by rw [hstep]⟩

/-- Witness for C2: after two activations in a launched process, object 4 is an
open window, and a click on its button closes window 4 only. -/
theorem click_closes_own_window_witness :
    (Toolkit.launched.atStartup = true ∧
      windowStatus
        (runEvents [Event.activate (some 0) none, Event.activate (some 0) none]
          Toolkit.launched) 4 = some WindowStatus.opened) ∧
      ∃ b o bt,
        buttonOf
          (runEvents [Event.activate (some 0) none, Event.activate (some 0) none]
            Toolkit.launched) 4 = some b ∧
        (runEvents [Event.activate (some 0) none, Event.activate (some 0) none]
          Toolkit.launched).objects[4]? = some o ∧
        (runEvents [Event.activate (some 0) none, Event.activate (some 0) none]
          Toolkit.launched).objects[b]? = some bt ∧
        bt.handlers = [⟨"clicked", Callback.on_button_clicked, some 4⟩] ∧
        (step (Event.clicked b)
            (runEvents [Event.activate (some 0) none, Event.activate (some 0) none]
              Toolkit.launched)).objects =
          (runEvents [Event.activate (some 0) none, Event.activate (some 0) none]
            Toolkit.launched).objects.set 4 { o with status := WindowStatus.closed } :=
  ⟨⟨by decide, by decide⟩,
   click_closes_own_window.2 Toolkit.launched (by decide) _ 4 WindowStatus.opened (by decide)⟩

/-- C6: `activate` leaves every object that existed before it unchanged; `main`
itself leaves the existing objects unchanged before the run loop and after it
changes at most the reference count of the object its `app` pointer points to;
and `on_button_clicked` changes the object table in at most one place: when its
user data points to a window, that window's status becomes closed and every
other field of it (title, default size, child, label, handlers) and every other
object stay as they were; otherwise nothing changes.  The result does not depend
on the `button` argument. -/
theorem click_handler_only_closes :
    (∀ (app user_data : Gpointer) (tk : Toolkit),
      (activate app user_data tk).objects.take tk.objects.length = tk.objects) ∧
    (∀ (loop : RunLoop) (argc : Int) (argv : List String) (tk : Toolkit),
      ∃ handed : Toolkit,
        handed.objects.take tk.objects.length = tk.objects ∧
        (main loop argc argv tk).1 = (loop (some tk.objects.length) argc argv handed).1 ∧
        ((main loop argc argv tk).2.objects
            = (loop (some tk.objects.length) argc argv handed).2.objects ∨
          ∃ o, (loop (some tk.objects.length) argc argv handed).2.objects[tk.objects.length]?
              = some o ∧
            (main loop argc argv tk).2.objects
              = (loop (some tk.objects.length) argc argv handed).2.objects.set
                  tk.objects.length { o with ref_count := o.ref_count - 1 })) ∧
    (∀ (button user_data : Gpointer) (tk : Toolkit),
      (on_button_clicked button user_data tk).objects = tk.objects ∨
        ∃ w o, user_data = some w ∧ tk.objects[w]? = some o ∧ o.isWindow = true ∧
          (on_button_clicked button user_data tk).objects
            = tk.objects.set w { o with status := WindowStatus.closed }) ∧
    (∀ (button user_data : Gpointer) (tk : Toolkit) (i : Nat),
      ((on_button_clicked button user_data tk).objects[i]?).map
          (fun o => { o with status := WindowStatus.hidden })
        = (tk.objects[i]?).map (fun o => { o with status := WindowStatus.hidden })) ∧
    (∀ (button user_data : Gpointer) (tk : Toolkit) (i : Nat),
      describe (on_button_clicked button user_data tk) i = describe tk i) ∧
    (∀ (button button2 user_data : Gpointer) (tk : Toolkit),
      on_button_clicked button user_data tk = on_button_clicked button2 user_data tk) := by
  have h3 : ∀ (button user_data : Gpointer) (tk : Toolkit) (i : Nat),
      ((on_button_clicked button user_data tk).objects[i]?).map
          (fun o => { o with status := WindowStatus.hidden })
        = (tk.objects[i]?).map (fun o => { o with status := WindowStatus.hidden }) := by
    intro button user_data tk i
    rcases on_button_clicked_objects button user_data tk with h | ⟨w, o, _, ho, _, h⟩
    · rw [h]
    · rw [h, List.getElem?_set]
      by_cases hj : w = i
      · subst hj
        simp [lt_length_of_getElem? ho, ho]
      · simp [hj]
  refine ⟨?_, ?_, on_button_clicked_objects, h3, ?_, fun _ _ _ _ => rfl⟩
  · intro app user_data tk
    rw [activate_eq]
    simp
  · intro loop argc argv tk
    refine ⟨perform (Call.g_application_run (some tk.objects.length) argc argv)
      (g_signal_connect (some tk.objects.length) "activate" Callback.activate none
        (gtk_application_new "com.example.gtk4_app" G_APPLICATION_DEFAULT_FLAGS tk).2),
      ?_, rfl, ?_⟩
    · obtain ⟨objs, cs⟩ := tk
      simp only [gtk_application_new, g_signal_connect, perform, Toolkit.alloc]
      simp only [update_append0]
      simp [Toolkit.update]
    · have hmain : (main loop argc argv tk).2 = g_object_unref (some tk.objects.length)
          (loop (some tk.objects.length) argc argv
            (perform (Call.g_application_run (some tk.objects.length) argc argv)
              (g_signal_connect (some tk.objects.length) "activate" Callback.activate none
                (gtk_application_new "com.example.gtk4_app" G_APPLICATION_DEFAULT_FLAGS
                  tk).2))).2 := rfl
      rw [hmain]
      rcases g_object_unref_objects (some tk.objects.length)
          (loop (some tk.objects.length) argc argv
            (perform (Call.g_application_run (some tk.objects.length) argc argv)
              (g_signal_connect (some tk.objects.length) "activate" Callback.activate none
                (gtk_application_new "com.example.gtk4_app" G_APPLICATION_DEFAULT_FLAGS
                  tk).2))).2 with h | ⟨i, o, hi, ho, h⟩
      · exact Or.inl h
      · cases hi
        exact Or.inr ⟨o, ho, h⟩
  · intro button user_data tk i
    exact describe_eq_of_erase (h3 button user_data tk) i

/-- C7: over the steps `activate` and click, (1) from any toolkit state, a closed
window stays closed under every sequence of steps; (2) in every state reached
from a startup state, one step leaves the status of an existing window as it was
or takes it from open to closed; (3) there, a click on the button of a closed
window changes no object; (4) there, an object that was not a window before a
step is afterwards still not a window or is a newly created open window. -/
theorem window_only_goes_from_open_to_closed :
    (∀ (es : List Event) (tk : Toolkit) (i : Nat),
      windowStatus tk i = some WindowStatus.closed →
      windowStatus (runEvents es tk) i = some WindowStatus.closed) ∧
    (∀ (tk0 : Toolkit), tk0.atStartup = true →
      ∀ (es : List Event) (e : Event) (i : Nat) (s : WindowStatus),
      windowStatus (runEvents es tk0) i = some s →
      windowStatus (step e (runEvents es tk0)) i = some s ∨
        (s = WindowStatus.opened ∧
          windowStatus (step e (runEvents es tk0)) i = some WindowStatus.closed)) ∧
    (∀ (tk0 : Toolkit), tk0.atStartup = true →
      ∀ (es : List Event) (i b : Nat),
      windowStatus (runEvents es tk0) i = some WindowStatus.closed →
      buttonOf (runEvents es tk0) i = some b →
      (step (Event.clicked b) (runEvents es tk0)).objects = (runEvents es tk0).objects) ∧
    (∀ (tk0 : Toolkit), tk0.atStartup = true →
      ∀ (es : List Event) (e : Event) (i : Nat),
      windowStatus (runEvents es tk0) i = none →
      windowStatus (step e (runEvents es tk0)) i = none ∨
        windowStatus (step e (runEvents es tk0)) i = some WindowStatus.opened) := by
  refine ⟨?_, ?_, ?_, ?_⟩
  · intro es tk i h
    rcases windowStatus_evolves (evolves_runEvents es tk) h with h2 | h2 <;> exact h2
  · intro tk0 h0 es e i s h
    have hne := windowStatus_ne_hidden (inv_reachable h0 es) h
    rcases windowStatus_evolves (evolves_step e _) h with h2 | h2
    · exact Or.inl h2
    · cases s with
      | hidden => exact absurd rfl hne
      | opened => exact Or.inr ⟨rfl, h2⟩
      | closed => exact Or.inl h2
  · intro tk0 h0 es i b hs hb
    obtain ⟨o, bt, ho, _, _, _, hstep⟩ := click_button_of_inv (inv_reachable h0 es) hb
    obtain ⟨o2, ho2, _, hst⟩ := windowStatus_eq_some.mp hs
    rw [ho] at ho2
    cases ho2
    rw [hstep]
    exact set_same_status ho hst
  · intro tk0 h0 es e i h
    cases e with
    | activate app user_data => exact windowStatus_activate_new app user_data _ i h
    | clicked button =>
      left
      simp only [step]
      rcases emit_clicked_of_inv (inv_reachable h0 es) button with h2 | ⟨_, w, _, _, _, h2⟩
      · rw [h2]; exact h
      · rw [h2]
        exact windowStatus_evolves_none (evolves_on_button_clicked _ _ _)
          (length_on_button_clicked _ _ _) h

/-- Witness for C7: in a launched process, after an activation and a click on its
button (object 3), window 1 is closed; it stays closed under a further activation
and click, a second click on its button changes nothing, and object 4, not a
window before the next activation, is an open window after it. -/
theorem window_only_goes_from_open_to_closed_witness :
    (windowStatus (runEvents [Event.activate (some 0) none, Event.clicked 3] Toolkit.launched) 1
        = some WindowStatus.closed ∧
      windowStatus (runEvents [Event.activate (some 0) none, Event.clicked 3]
          (runEvents [Event.activate (some 0) none, Event.clicked 3] Toolkit.launched)) 1
        = some WindowStatus.closed) ∧
    ((Toolkit.launched.atStartup = true ∧
        windowStatus (runEvents [Event.activate (some 0) none] Toolkit.launched) 1
          = some WindowStatus.opened) ∧
      (windowStatus
          (step (Event.clicked 3) (runEvents [Event.activate (some 0) none] Toolkit.launched)) 1
          = some WindowStatus.opened ∨
        (WindowStatus.opened = WindowStatus.opened ∧
          windowStatus
            (step (Event.clicked 3) (runEvents [Event.activate (some 0) none] Toolkit.launched))
            1 = some WindowStatus.closed))) ∧
    ((Toolkit.launched.atStartup = true ∧
        windowStatus (runEvents [Event.activate (some 0) none, Event.clicked 3] Toolkit.launched)
          1 = some WindowStatus.closed ∧
        buttonOf (runEvents [Event.activate (some 0) none, Event.clicked 3] Toolkit.launched) 1
          = some 3) ∧
      (step (Event.clicked 3)
          (runEvents [Event.activate (some 0) none, Event.clicked 3] Toolkit.launched)).objects
        = (runEvents [Event.activate (some 0) none, Event.clicked 3] Toolkit.launched).objects) ∧
    ((Toolkit.launched.atStartup = true ∧
        windowStatus (runEvents [Event.activate (some 0) none] Toolkit.launched) 4 = none) ∧
      (windowStatus
          (step (Event.activate (some 0) none)
            (runEvents [Event.activate (some 0) none] Toolkit.launched)) 4 = none ∨
        windowStatus
          (step (Event.activate (some 0) none)
            (runEvents [Event.activate (some 0) none] Toolkit.launched)) 4
          = some WindowStatus.opened)) :=
  ⟨⟨by decide, window_only_goes_from_open_to_closed.1 _ _ 1 (by decide)⟩,
   ⟨⟨by decide, by decide⟩,
    window_only_goes_from_open_to_closed.2.1 Toolkit.launched (by decide)
      [Event.activate (some 0) none] (Event.clicked 3) 1 _ (by decide)⟩,
   ⟨⟨by decide, by decide, by decide⟩,
    window_only_goes_from_open_to_closed.2.2.1 Toolkit.launched (by decide)
      [Event.activate (some 0) none, Event.clicked 3] 1 3 (by decide) (by decide)⟩,
   ⟨⟨by decide, by decide⟩,
    window_only_goes_from_open_to_closed.2.2.2 Toolkit.launched (by decide)
      [Event.activate (some 0) none] (Event.activate (some 0) none) 4 (by decide)⟩⟩

/-- C9: the calls of `activate` are some calls, none of them a
`gtk_window_present`, followed by `gtk_window_present` on the new window as the
last call.  In the state just before that last call the new window is not yet
open, its title and default size are set, the box is its child, the button is
the box's only child and the click handler is connected to the button.  Hence,
in a run of `activate` from any state reached from a startup state, after any
number `k` of its calls every window that is open has the complete description
and a button carrying the click handler. -/
theorem present_is_last_call :
    (∀ (app user_data : Gpointer) (tk : Toolkit),
      ∃ (pre : List Call) (w bx bt : GObject),
        callsOfActivate app user_data tk
          = pre ++ [Call.gtk_window_present (some tk.objects.length)] ∧
        pre.all (fun c => !c.isPresent) = true ∧
        activate app user_data tk
          = perform (Call.gtk_window_present (some tk.objects.length)) (replay pre tk) ∧
        (replay pre tk).objects = tk.objects ++ [w, bx, bt] ∧
        w.isWindow = true ∧ w.status = WindowStatus.hidden ∧
        w.title = some "Simple GTK4 App" ∧ w.default_size = some (300, 200) ∧
        w.child = some (tk.objects.length + 1) ∧
        bx.isBox = true ∧ bx.children = [tk.objects.length + 2] ∧
        bt.isButton = true ∧
        bt.handlers = [⟨"clicked", Callback.on_button_clicked, some tk.objects.length⟩] ∧
        describe (replay pre tk) tk.objects.length = some demoView) ∧
    (∀ (tk0 : Toolkit), tk0.atStartup = true →
      ∀ (es : List Event) (app user_data : Gpointer) (k i : Nat),
      windowStatus (duringActivate app user_data (runEvents es tk0) k) i
        = some WindowStatus.opened →
      describe (duringActivate app user_data (runEvents es tk0) k) i = some demoView ∧
      ∃ b bt,
        buttonOf (duringActivate app user_data (runEvents es tk0) k) i = some b ∧
        (duringActivate app user_data (runEvents es tk0) k).objects[b]? = some bt ∧
        bt.handlers = [⟨"clicked", Callback.on_button_clicked, some i⟩]) := by
  constructor
  · intro app user_data tk
    refine ⟨(activateCalls app tk.objects.length).take 12,
      builtWindow app tk.objects.length WindowStatus.hidden, builtBox tk.objects.length,
      builtButton tk.objects.length, ?_, ?_, ?_, ?_, rfl, rfl, rfl, rfl, rfl, rfl, rfl, rfl,
      rfl, ?_⟩
    · rw [callsOfActivate, activate_calls_drop]
      rfl
    · simp [activateCalls, Call.isPresent]
    · rw [← replay_activateCalls app user_data tk]
      simp only [replay, activateCalls, List.take, List.foldl]
    · rw [replay_built]
    · rw [replay_built]
      exact describe_built _ _ _ _
  · intro tk0 h0 es app user_data k i
    have hi := inv_reachable h0 es
    rw [duringActivate, callsOfActivate, activate_calls_drop]
    intro hs
    have hd := opened_complete_during_activate hi app user_data k i hs
    exact ⟨hd, button_of_describe hd⟩

/-- Witness for C9: in a launched process with one window (object 1), five calls
into a second activation window 1 is open, and it has the complete description
and its button the click handler. -/
theorem present_is_last_call_witness :
    (Toolkit.launched.atStartup = true ∧
      windowStatus
        (duringActivate (some 0) none
          (runEvents [Event.activate (some 0) none] Toolkit.launched) 5) 1
        = some WindowStatus.opened) ∧
      (describe
          (duringActivate (some 0) none
            (runEvents [Event.activate (some 0) none] Toolkit.launched) 5) 1 = some demoView ∧
        ∃ b bt,
          buttonOf
            (duringActivate (some 0) none
              (runEvents [Event.activate (some 0) none] Toolkit.launched) 5) 1 = some b ∧
          (duringActivate (some 0) none
              (runEvents [Event.activate (some 0) none] Toolkit.launched) 5).objects[b]?
            = some bt ∧
          bt.handlers = [⟨"clicked", Callback.on_button_clicked, some 1⟩]) :=
  ⟨⟨by decide, by decide⟩,
   present_is_last_call.2 Toolkit.launched (by decide) [Event.activate (some 0) none]
     (some 0) none 5 1 (by decide)⟩

/-! ## The claim about `main` -/

/-- C3: for every `argc`, `argv`, prior state and every behaviour of the
toolkit's run loop, `main` first creates the application with ID
"com.example.gtk4_app" and the default flags, then connects `activate` to its
"activate" signal with `NULL` user data, then calls `g_application_run` with that
application and with `argc` and `argv` unchanged (so that in the state handed to
the run loop an emission of "activate" on the application runs `activate` on it
with `NULL` user data, and that state is a startup state exactly when the prior
state is); the value `main` returns is
exactly the value that run call returned, and the only thing `main` does after
the run call is to drop its reference to the application. -/
theorem main_returns_run_status (loop : RunLoop) (argc : Int) (argv : List String)
    (tk : Toolkit) :
    ∃ handed : Toolkit,
      handed.objects = tk.objects ++
        [{ gtype := GType.GTK_TYPE_APPLICATION, application_id := "com.example.gtk4_app",
           flags := G_APPLICATION_DEFAULT_FLAGS,
           handlers := [⟨"activate", Callback.activate, none⟩] }] ∧
      handed.calls = tk.calls ++
        [Call.gtk_application_new "com.example.gtk4_app" G_APPLICATION_DEFAULT_FLAGS,
         Call.g_signal_connect (some tk.objects.length) "activate" Callback.activate none,
         Call.g_application_run (some tk.objects.length) argc argv] ∧
      g_signal_emit tk.objects.length "activate" handed
        = activate (some tk.objects.length) none handed ∧
      handed.atStartup = tk.atStartup ∧
      (main loop argc argv tk).1 = (loop (some tk.objects.length) argc argv handed).1 ∧
      (main loop argc argv tk).2
        = g_object_unref (some tk.objects.length)
            (loop (some tk.objects.length) argc argv handed).2 := by
  obtain ⟨objs, cs⟩ := tk
  refine ⟨_, ?_, ?_, ?_, ?_, rfl, rfl⟩
  · simp only [gtk_application_new, g_signal_connect, G_CALLBACK, G_APPLICATION, perform,
      Toolkit.alloc]
    simp only [update_append0]
    simp [Toolkit.update]
  · simp only [gtk_application_new, g_signal_connect, G_CALLBACK, G_APPLICATION, perform,
      Toolkit.alloc]
    simp only [update_append0]
    simp [Toolkit.update]
  · simp only [gtk_application_new, g_signal_connect, G_CALLBACK, G_APPLICATION, perform,
      Toolkit.alloc]
    simp only [update_append0]
    simp [Toolkit.update, g_signal_emit, invoke]
  · simp only [gtk_application_new, g_signal_connect, G_CALLBACK, G_APPLICATION, perform,
      Toolkit.alloc]
    simp only [update_append0]
    simp [Toolkit.update, Toolkit.atStartup, GObject.isApplication]

end GtkExample
